import Mathlib

/-!
Shallow embedding of sentry2csv (src/sentry2csv/sentry2csv.py) and proofs
about its specification.

The remote responses are modelled as already-received data: a response has a
numeric status, an optional decoded JSON body (none when the body is not valid
JSON), and parsed pagination link metadata.  Python dictionaries are modelled
as association lists in insertion order, Python exceptions as an explicit
error type threaded through Except.  Network and file I/O themselves are not
modelled; the file records the lines a run would write and the requests it
would issue.
-/

namespace Sentry2CSV

/-- A decoded JSON value.  Python dicts keep insertion order, hence the
association-list representation of objects. -/
inductive Json where
  | null
  | bool (b : Bool)
  | num (n : Int)
  | str (s : String)
  | arr (items : List Json)
  | obj (fields : List (String × Json))

/-- Association-list lookup, first match wins, as in a Python dict read. -/
def alookup (k : String) : List (String × Json) → Option Json
  | [] => none
  | (k2, v) :: rest => if k = k2 then some v else alookup k rest

/-- Python dict item assignment: replace the value in place if the key is
present, preserving its position, otherwise append the new pair. -/
def dictSetKV (kvs : List (String × Json)) (k : String) (v : Json) :
    List (String × Json) :=
  match kvs with
  | [] => [(k, v)]
  | (k2, v2) :: rest =>
    if k2 = k then (k2, v) :: rest else (k2, v2) :: dictSetKV rest k v

/-- Python double-splat merge of two dicts: keys of the second are assigned
over the first one by one, so second-dict values win on collision and new
keys are appended in the second dict order. -/
def mergeDict (base : List (String × Json)) : List (String × Json) → List (String × Json)
  | [] => base
  | (k, v) :: rest => mergeDict (dictSetKV base k v) rest

/-- Test whether a value is the empty dict, as the Python comparison with an
empty dict literal: only an empty dict compares equal to it. -/
def isEmptyObj : Json → Bool
  | .obj [] => true
  | _ => false

/-- Test whether a value is a given Python string (comparison of a decoded
value with a string literal: false for every non-string value). -/
def jsonIsStr (v : Json) (s : String) : Bool :=
  match v with
  | .str s2 => s2 = s
  | _ => false

/-- Split a character list at every occurrence of a separator character,
keeping empty groups, as Python str.split with a one-character separator. -/
def splitChar (c : Char) : List Char → List (List Char)
  | [] => [[]]
  | a :: rest =>
    let r := splitChar c rest
    if a = c then [] :: r
    else
      match r with
      | [] => [[a]]
      | g :: gs => (a :: g) :: gs

/-- Python str.split with a one-character separator: an empty string gives a
single empty field, and empty fields are kept. -/
def pySplit (c : Char) (s : String) : List String :=
  (splitChar c s.data).map String.mk

/-- Python str.join with a single space, used for the issue query string. -/
def joinWithSpace : List String → String
  | [] => ""
  | [s] => s
  | s :: rest => s ++ " " ++ joinWithSpace rest

/-- QueryParam: a field-value pair for the Sentry query string. -/
structure QueryParam where
  field : String
  value : String
deriving DecidableEq

/-- The repr of a QueryParam: field and value joined by a colon. -/
def QueryParam.repr (p : QueryParam) : String :=
  p.field ++ ":" ++ p.value

/-- The query string sent with every issues request: the stringified query
parameters joined by single spaces. -/
def queryStr (qps : List QueryParam) : String :=
  joinWithSpace (qps.map QueryParam.repr)

/-- The message payload of a Sentry2CSVException. -/
inductive Msg where
  | accessDenied
  | unexpectedResponse (detail : Json)
  | unexpectedApi

/-- The exceptions a run can raise.  s2csv is the handled
Sentry2CSVException; the others are ordinary Python exceptions that the
orchestrator does not catch.  noResponse is a model artefact marking a
request that the finite response trace leaves unanswered. -/
inductive PyError where
  | s2csv (msg : Msg)
  | assertionError
  | keyError
  | valueError
  | typeError
  | attributeError
  | indexError
  | decodeError
  | noResponse

/-- An enrichment: a CSV column label and a path of segments into the latest
event of an issue. -/
structure Enrichment where
  csv_field : String
  sentry_path : List String
deriving DecidableEq

/-- Enrichment.from_mapping_string: split the mapping on the equals sign and
unpack into exactly two parts (any other arity raises ValueError, so a
mapping with no equals sign or more than one fails), then split the left
part on dots into the path. -/
def Enrichment.from_mapping_string (m : String) : Except PyError Enrichment :=
  match pySplit '=' m with
  | [l, r] => .ok ⟨r, pySplit '.' l⟩
  | _ => .error .valueError

/-- The list comprehension over the comma-separated entries: each entry is
parsed in order, the first failure aborting. -/
def parseMappings : List String → Except PyError (List Enrichment)
  | [] => .ok []
  | m :: rest =>
    match Enrichment.from_mapping_string m with
    | .error e => .error e
    | .ok en =>
      match parseMappings rest with
      | .error e => .error e
      | .ok ens => .ok (en :: ens)

/-- extract_enrichment: an absent mappings string gives no enrichments,
otherwise the string is split on commas and each entry parsed in order. -/
def extract_enrichment (mappings : Option String) : Except PyError (List Enrichment) :=
  match mappings with
  | none => .ok []
  | some s => parseMappings (pySplit ',' s)

/-- Parsed pagination link metadata of a response: relation names mapped to
attribute maps, as aiohttp exposes the Link header. -/
def Links : Type := List (String × List (String × String))

/-- String-valued lookup in an attribute map. -/
def slookup (k : String) : List (String × String) → Option String
  | [] => none
  | (k2, v) :: rest => if k = k2 then some v else slookup k rest

/-- A received HTTP response: status code, decoded JSON body (none when the
body is not valid JSON) and the parsed Link header (none when absent). -/
structure RawResponse where
  status : Nat
  body : Option Json
  linkHeader : Option Links

/-- fetch: on status 403 raise the handled access-denied exception without
looking at the body; otherwise return the decoded body (a failed decode
raises) together with the link metadata, which is empty when the Link
header is absent. -/
def fetch (r : RawResponse) : Except PyError (Json × Links) :=
  if r.status = 403 then .error (.s2csv .accessDenied)
  else
    match r.body with
    | some j => .ok (j, r.linkHeader.getD [])
    | none => .error .decodeError

/-- The next.results attribute of link metadata, read with empty-dict
defaults as the pagination loop does. -/
def nextResults (links : Links) : Option String :=
  slookup "results" ((alookup2 links).getD [])
where alookup2 (ls : Links) : Option (List (String × String)) :=
  match ls with
  | [] => none
  | (k2, v) :: rest => if k2 = "next" then some v else alookup2 rest

/-- The next.cursor attribute of link metadata; the loop indexes it without
a default, so its absence raises KeyError. -/
def nextCursor (links : Links) : Option String :=
  (nextResults.alookup2 links).bind (slookup "cursor")

/-- One issues-endpoint request as the pagination loop issues it. -/
structure IssuesReq where
  cursor : String
  statsPeriod : String
  query : String
deriving DecidableEq

/-- The body of fetch_issues: walk the response trace with the rolling
cursor, returning the accumulated records or the raised exception, paired
with the requests issued.  A dict body with a detail key raises the handled
exception carrying the detail; any other non-list body fails the assert.
The loop continues exactly when next.results is the string true, reading
the next cursor (KeyError when missing). -/
def fetchIssuesGo (q : String) : List RawResponse → String →
    Except PyError (List Json) × List IssuesReq
  | [], cursor => (.error .noResponse, [⟨cursor, "", q⟩])
  | r :: rest, cursor =>
    let req : IssuesReq := ⟨cursor, "", q⟩
    match fetch r with
    | .error e => (.error e, [req])
    | .ok (body, links) =>
      match body with
      | .obj kvs =>
        match alookup "detail" kvs with
        | some d => (.error (.s2csv (.unexpectedResponse d)), [req])
        | none => (.error .assertionError, [req])
      | .arr items =>
        if nextResults links = some "true" then
          match nextCursor links with
          | some c =>
            let (out, reqs) := fetchIssuesGo q rest c
            (out.map (fun l => items ++ l), req :: reqs)
          | none => (.error .keyError, [req])
        else (.ok items, [req])
      | _ => (.error .assertionError, [req])

/-- fetch_issues: run the pagination loop from an empty cursor with the
space-joined stringified query parameters. -/
def fetch_issues (qps : List QueryParam) (pages : List RawResponse) :
    Except PyError (List Json) × List IssuesReq :=
  fetchIssuesGo (queryStr qps) pages ""

/-- The records of a page whose body decoded to a list (empty otherwise;
only used under that hypothesis). -/
def pageRecords (r : RawResponse) : List Json :=
  match r.body with
  | some (.arr items) => items
  | _ => []

/-- Whether a response body decoded to a list. -/
def pageIsList (r : RawResponse) : Bool :=
  match r.body with
  | some (.arr _) => true
  | _ => false

/-- The link metadata of a response as the loop sees it. -/
def linksOf (r : RawResponse) : Links :=
  r.linkHeader.getD []

/-- The cursor the loop adopts after consuming a page. -/
def nextCursorD (r : RawResponse) : String :=
  (nextCursor (linksOf r)).getD ""

/-- A middle page of a run: not denied, decodes to a list, and its link
metadata tells the loop to continue with a present cursor. -/
def MidPage (r : RawResponse) : Prop :=
  r.status ≠ 403 ∧ pageIsList r = true ∧
    nextResults (linksOf r) = some "true" ∧ (nextCursor (linksOf r)).isSome = true

instance (r : RawResponse) : Decidable (MidPage r) := by
  unfold MidPage; exact inferInstance

/-- A final page of a run: not denied, decodes to a list, and its link
metadata lacks a next.results attribute equal to the string true. -/
def LastPage (r : RawResponse) : Prop :=
  r.status ≠ 403 ∧ pageIsList r = true ∧ nextResults (linksOf r) ≠ some "true"

instance (r : RawResponse) : Decidable (LastPage r) := by
  unfold LastPage; exact inferInstance

/-- The requests the loop issues while consuming the given pages, starting
from the given cursor and chaining each next cursor. -/
def expectedReqs (q : String) : String → List RawResponse → List IssuesReq
  | _, [] => []
  | c, p :: rest => ⟨c, "", q⟩ :: expectedReqs q (nextCursorD p) rest

/-- The cursor in force after consuming the given pages. -/
def cursorAfter : String → List RawResponse → String
  | c, [] => c
  | _, p :: rest => cursorAfter (nextCursorD p) rest

/-- The concatenation of the record lists of the given pages. -/
def midsRecords : List RawResponse → List Json
  | [] => []
  | p :: rest => pageRecords p ++ midsRecords rest

/-- The chained get of the enrichment walk after the first segment: a dict
step reads the key with an empty-dict default; calling get on a non-dict
value raises AttributeError. -/
def walkSteps : Json → List String → Except PyError Json
  | v, [] => .ok v
  | .obj kvs, s :: rest => walkSteps ((alookup s kvs).getD (.obj [])) rest
  | _, _ :: _ => .error .attributeError

/-- The final empty-dict normalization of an enrichment value: a value equal
to the empty dict becomes the empty string, anything else is kept as-is. -/
def normalizeEmpty (v : Json) : Json :=
  if isEmptyObj v then .str "" else v

/-- The value one enrichment extracts from a decoded event dict: the first
segment is read from the event with an empty-dict default (an empty path
raises IndexError on the first-segment access), the remaining segments are
chained gets, and the result is empty-dict-normalized. -/
def enrichmentValue (event : List (String × Json)) (path : List String) :
    Except PyError Json :=
  match path with
  | [] => .error .indexError
  | s :: steps => (walkSteps ((alookup s event).getD (.obj [])) steps).map normalizeEmpty

/-- The enrichment loop of enrich_issue: for each enrichment, assert the
event decoded to a dict, extract its value and assign it into the side-map
under the CSV field label. -/
def buildEnrichments (event : Json) :
    List Enrichment → List (String × Json) → Except PyError (List (String × Json))
  | [], acc => .ok acc
  | e :: rest, acc =>
    match event with
    | .obj ekvs =>
      match enrichmentValue ekvs e.sentry_path with
      | .ok v => buildEnrichments event rest (dictSetKV acc e.csv_field v)
      | .error err => .error err
    | _ => .error .assertionError

/-- The latest-event server: the response to the per-issue secondary fetch,
keyed by the id value of the issue. -/
def EventServer : Type := Json → RawResponse

/-- enrich_issue: read the issue id (KeyError when absent, TypeError on a
non-dict record), fetch the latest event, then set the side-map under the
key underscore-enrichments, starting from an empty dict and filling it by
the enrichment loop.  The rest of the record is left untouched. -/
def enrich_issue (eventsFor : EventServer) (enrs : List Enrichment)
    (issue : Json) : Except PyError Json :=
  match issue with
  | .obj kvs =>
    match alookup "id" kvs with
    | none => .error .keyError
    | some idv =>
      match fetch (eventsFor idv) with
      | .error e => .error e
      | .ok (event, _) =>
        match buildEnrichments event enrs [] with
        | .error e => .error e
        | .ok em => .ok (.obj (dictSetKV kvs "_enrichments" (.obj em)))
  | _ => .error .typeError

/-- The enrichment fan-out over all issues: each record is enriched
independently of the others; the first failure aborts the phase. -/
def enrichAll (eventsFor : EventServer) (enrs : List Enrichment) :
    List Json → Except PyError (List Json)
  | [] => .ok []
  | i :: rest =>
    match enrich_issue eventsFor enrs i with
    | .error e => .error e
    | .ok i2 =>
      match enrichAll eventsFor enrs rest with
      | .error e => .error e
      | .ok rest2 => .ok (i2 :: rest2)

/-- Python dict indexing: KeyError when the key is missing, TypeError when
the value indexed is not a dict. -/
def pyIndex (v : Json) (k : String) : Except PyError Json :=
  match v with
  | .obj kvs =>
    match alookup k kvs with
    | some x => .ok x
    | none => .error .keyError
  | _ => .error .typeError

/-- Python dict get with a default: AttributeError when the receiver is not
a dict. -/
def pyGetD (v : Json) (k : String) (d : Json) : Except PyError Json :=
  match v with
  | .obj kvs => .ok ((alookup k kvs).getD d)
  | _ => .error .attributeError

/-- The Error and Details columns, classified on the type tag exactly as the
source branches do: the error tag reads metadata.type with the tag as
default and requires metadata.value; the csp tag requires metadata.message;
the default tag reads metadata.title with an empty-string default; any
other tag keeps the tag verbatim with empty details and reads nothing. -/
def projectED (issue : Json) (issueType : Json) : Except PyError (Json × Json) :=
  if jsonIsStr issueType "error" then
    match pyIndex issue "metadata" with
    | .error e => .error e
    | .ok md =>
      match pyGetD md "type" issueType with
      | .error e => .error e
      | .ok er =>
        match pyIndex md "value" with
        | .error e => .error e
        | .ok d => .ok (er, d)
  else if jsonIsStr issueType "csp" then
    match pyIndex issue "metadata" with
    | .error e => .error e
    | .ok md =>
      match pyIndex md "message" with
      | .error e => .error e
      | .ok d => .ok (Json.str "csp", d)
  else if jsonIsStr issueType "default" then
    match pyIndex issue "metadata" with
    | .error e => .error e
    | .ok md =>
      match pyGetD md "title" (.str "") with
      | .error e => .error e
      | .ok d => .ok (Json.str "default", d)
  else .ok (issueType, Json.str "")

/-- The per-record row of write_csv: classify on the type tag, build the
seven base columns in source evaluation order, then splat the side-map over
them (side-map keys win). -/
def projectRow (issue : Json) : Except PyError (List (String × Json)) :=
  match pyIndex issue "type" with
  | .error e => .error e
  | .ok issueType =>
    match projectED issue issueType with
    | .error e => .error e
    | .ok ed =>
      match pyIndex issue "culprit" with
      | .error e => .error e
      | .ok culprit =>
        match pyIndex issue "count" with
        | .error e => .error e
        | .ok count =>
          match pyIndex issue "userCount" with
          | .error e => .error e
          | .ok userCount =>
            match pyIndex issue "permalink" with
            | .error e => .error e
            | .ok permalink =>
              match pyGetD issue "_enrichments" (.obj []) with
              | .error e => .error e
              | .ok enr =>
                match enr with
                | .obj ekvs =>
                  .ok (mergeDict
                    [("Error", ed.1), ("Location", culprit), ("Details", ed.2),
                     ("Events", count), ("Users", userCount),
                     ("Notes", Json.str ""), ("Link", permalink)] ekvs)
                | _ => .error .typeError

/-- The seven fixed header columns. -/
def base7 : List String :=
  ["Error", "Location", "Details", "Events", "Users", "Notes", "Link"]

/-- The seven base columns of a row before the side-map merge. -/
def baseRow (er cu det cn uc pl : Json) : List (String × Json) :=
  [("Error", er), ("Location", cu), ("Details", det), ("Events", cn),
   ("Users", uc), ("Notes", Json.str ""), ("Link", pl)]

/-- DictWriter writerow: a row key outside the header raises ValueError;
otherwise the cells are the row values in header order, with an empty
string for a header column the row lacks. -/
def renderRow (fns : List String) (row : List (String × Json)) :
    Except PyError (List Json) :=
  if row.any (fun kv => !(fns.contains kv.1)) then .error .valueError
  else .ok (fns.map (fun f => (alookup f row).getD (.str "")))

/-- One iteration of the write loop: project and write the row, converting
a KeyError (a missing required field) into the handled exception with the
run-with-verbosity message.  Other exceptions pass through uncaught. -/
def tryRow (fns : List String) (issue : Json) : Except PyError (List Json) :=
  let attempt : Except PyError (List Json) :=
    match projectRow issue with
    | .error e => .error e
    | .ok row => renderRow fns row
  match attempt with
  | .error .keyError => .error (.s2csv .unexpectedApi)
  | out => out

/-- The header columns: the seven fixed ones, extended by the side-map keys
of the first record when it has a side-map.  A non-dict first record or a
non-dict side-map raises; the Python membership test on non-dict container
shapes is not modelled beyond that. -/
def fieldnamesOf (issues : List Json) : Except PyError (List String) :=
  match issues with
  | [] => .ok base7
  | first :: _ =>
    match first with
    | .obj kvs =>
      match alookup "_enrichments" kvs with
      | some (.obj ekvs) => .ok (base7 ++ ekvs.map Prod.fst)
      | some _ => .error .attributeError
      | none => .ok base7
    | _ => .error .typeError

/-- The header line as written. -/
def headerCells (fns : List String) : List Json :=
  fns.map Json.str

/-- The write loop: rows are written one by one; the first failure stops the
loop, leaving the rows already written in the file. -/
def writeRows (fns : List String) : List Json → List (List Json) × Except PyError Unit
  | [] => ([], .ok ())
  | i :: rest =>
    match tryRow fns i with
    | .error e => ([], .error e)
    | .ok cells =>
      let (ls, out) := writeRows fns rest
      (cells :: ls, out)

/-- write_csv: compute the header (before the file is opened), then write
the header line and the rows.  The result is the file content as written
together with the outcome; on a row failure the file keeps the header and
the rows written before the failure. -/
def write_csv (issues : List Json) : List (List Json) × Except PyError Unit :=
  match fieldnamesOf issues with
  | .error e => ([], .error e)
  | .ok fns =>
    let (rows, out) := writeRows fns issues
    (headerCells fns :: rows, out)

/-- Whether an attempt succeeded. -/
def exOk {ε α : Type} : Except ε α → Bool
  | .ok _ => true
  | .error _ => false

/-- The cells the write loop produces for a record (empty on failure; only
used for records whose attempt succeeded). -/
def rowCells (fns : List String) (issue : Json) : List Json :=
  match tryRow fns issue with
  | .ok cells => cells
  | .error _ => []

/-- A decoded body that is neither a list nor a detail-carrying dict: the
shapes on which the pagination assert fails. -/
def notListNotDetail : Json → Bool
  | .arr _ => false
  | .obj kvs => (alookup "detail" kvs).isNone
  | _ => true

/-- Whether a decoded value is a dict. -/
def isObjB : Json → Bool
  | .obj _ => true
  | _ => false

/-- The remote side of one run: the successive issues-endpoint responses and
the latest-event server. -/
structure World where
  pages : List RawResponse
  eventsFor : EventServer

/-- The observable outcome of a run: success printing the output filename,
a handled failure printing exactly one message and exiting non-zero, or an
unhandled exception surfacing with a stack trace. -/
inductive RunOutcome where
  | success (outfile : String) (file : List (List Json))
  | failure (msg : Msg)
  | crashed (err : PyError)

/-- export: fetch all issues, enrich them when enrichments are configured,
and write the CSV named from the organization and project.  Only the
handled exception is caught and turned into a single printed message; any
other exception escapes.  The bearer token and host only shape headers and
URLs and are not modelled. -/
def exportRun (w : World) (org proj : String) (qps : List QueryParam)
    (enrich : Option (List Enrichment)) : RunOutcome :=
  let enrichments := enrich.getD []
  match (fetch_issues qps w.pages).1 with
  | .error (.s2csv m) => .failure m
  | .error e => .crashed e
  | .ok issues =>
    match (if enrichments.isEmpty then .ok issues
           else enrichAll w.eventsFor enrichments issues) with
    | .error (.s2csv m) => .failure m
    | .error e => .crashed e
    | .ok issues2 =>
      match (write_csv issues2).2 with
      | .ok _ => .success (org ++ "-" ++ proj ++ "-export.csv") (write_csv issues2).1
      | .error (.s2csv m) => .failure m
      | .error e => .crashed e

/-- The issues-endpoint requests a run issues. -/
def exportRequests (w : World) (qps : List QueryParam) : List IssuesReq :=
  (fetch_issues qps w.pages).2

/-- The entry point after argument parsing: parse the enrichment mappings
first, then run the export.  A parse failure escapes before any request is
issued. -/
def mainModel (w : World) (org proj : String) (qps : List QueryParam)
    (mappings : Option String) : RunOutcome × List IssuesReq :=
  match extract_enrichment mappings with
  | .error e => (.crashed e, [])
  | .ok enrs => (exportRun w org proj qps (some enrs), exportRequests w qps)

/-- Lookup of a top-level field of a record. -/
def jlookup (j : Json) (k : String) : Option Json :=
  match j with
  | .obj kvs => alookup k kvs
  | _ => none

/-- Modelled from the spec (amended): the enrichment walk as an explicit
recursion over a JSON value, pattern-matching each step on dict versus
other, defaulting to an empty-dict sentinel on a key missing from a dict,
failing on a non-dict intermediate while segments remain, and converting
the sentinel to an empty string only at the final step. -/
def specSteps : Json → List String → Except PyError Json
  | v, [] => .ok (if isEmptyObj v then Json.str "" else v)
  | .obj kvs, s :: rest => specSteps ((alookup s kvs).getD (.obj [])) rest
  | _, _ :: _ => .error .attributeError

/-- Modelled from the spec (amended): the full per-enrichment walk from a
decoded event dict along a path. -/
def specWalkValue (event : List (String × Json)) (path : List String) :
    Except PyError Json :=
  match path with
  | [] => .error .indexError
  | s :: steps => specSteps ((alookup s event).getD (.obj [])) steps

/-- First concrete page: two records, link metadata continuing with cursor
12345:0:0. -/
def pageP1 : RawResponse :=
  ⟨200, some (.arr [.str "i1", .str "i2"]),
   some [("next", [("results", "true"), ("cursor", "12345:0:0")])]⟩

/-- Second concrete page: one record, link metadata ending pagination. -/
def pageP2 : RawResponse :=
  ⟨200, some (.arr [.str "i3"]), some [("next", [("results", "false")])]⟩

/-- A page whose body is the error dict the API uses to report failures. -/
def pageDetail : RawResponse :=
  ⟨200, some (.obj [("detail", .str "Invalid query")]), none⟩

/-- A page whose body is neither a list nor a dict. -/
def pageBadShape : RawResponse :=
  ⟨200, some (.num 5), none⟩

/-- A denied response whose body is not even decodable JSON. -/
def resp403 : RawResponse :=
  ⟨403, none, none⟩

/-- An ordinary successful response. -/
def resp200 : RawResponse :=
  ⟨200, some (.obj [("foo", .str "bar")]), none⟩

/-- A latest-event server answering every id with a small event dict. -/
def eventsSimple : EventServer :=
  fun _ => ⟨200, some (.obj [("x", .num 1)]), none⟩

/-- A latest-event server answering every id with a non-dict body. -/
def eventsBadShape : EventServer :=
  fun _ => ⟨200, some (.num 7), none⟩

/-- A world with a single empty issues page. -/
def worldEmpty : World :=
  ⟨[⟨200, some (.arr []), none⟩], eventsSimple⟩

/-- A world whose single issues page has a non-list, non-detail body. -/
def worldBadShape : World :=
  ⟨[pageBadShape], eventsSimple⟩

/-- A world whose single issues page is the API error dict. -/
def worldDetail : World :=
  ⟨[pageDetail], eventsSimple⟩

/-- The example record of the spec: an error-type issue with a more specific
metadata type. -/
def issueWarning : Json :=
  .obj [("type", .str "error"),
        ("metadata", .obj [("type", .str "warning"), ("value", .str "explanation")]),
        ("culprit", .str "X"), ("count", .num 123), ("userCount", .num 3),
        ("permalink", .str "L")]

/-- A default-type record with every explicitly required base field present
but no metadata field at all. -/
def issueDefaultNoMeta : Json :=
  .obj [("type", .str "default"), ("culprit", .str "X"), ("count", .num 1),
        ("userCount", .num 2), ("permalink", .str "L")]

/-- A csp-type record whose metadata lacks the required message field. -/
def issueCspNoMessage : Json :=
  .obj [("type", .str "csp"), ("metadata", .obj []), ("culprit", .str "Y"),
        ("count", .num 4), ("userCount", .num 5), ("permalink", .str "M")]

/-- A record with an id, used by the enrichment fixtures. -/
def issueWithId : Json :=
  .obj [("id", .str "1"), ("culprit", .str "c")]

theorem pageIsList_elim {r : RawResponse} (h : pageIsList r = true) :
    ∃ items, r.body = some (.arr items) := by
  unfold pageIsList at h
  match hb : r.body with
  | some (.arr items) => exact ⟨items, rfl⟩
  | none | some .null | some (.bool _) | some (.num _) | some (.str _)
  | some (.obj _) => rw [hb] at h; cases h

theorem isSome_elim {o : Option String} (h : o.isSome = true) :
    ∃ c, o = some c := by
  cases o with
  | none => cases h
  | some c => exact ⟨c, rfl⟩

theorem fetchIssuesGo_append (q : String) (mids rest : List RawResponse)
    (c : String) (h : ∀ p ∈ mids, MidPage p) :
    fetchIssuesGo q (mids ++ rest) c =
      (((fetchIssuesGo q rest (cursorAfter c mids)).1).map
         (fun l => midsRecords mids ++ l),
       expectedReqs q c mids ++ (fetchIssuesGo q rest (cursorAfter c mids)).2) := by
  induction mids generalizing c with
  | nil =>
    simp only [List.nil_append, midsRecords, expectedReqs, cursorAfter]
    rcases hres : fetchIssuesGo q rest c with ⟨o, reqs⟩
    cases o <;> simp [Except.map]
  | cons p mids ih =>
    obtain ⟨hst, hlist, hnr, hcur⟩ := h p (List.mem_cons_self p mids)
    obtain ⟨items, hbody⟩ := pageIsList_elim hlist
    obtain ⟨cv, hcv⟩ := isSome_elim hcur
    have hrest : ∀ x ∈ mids, MidPage x := fun x hx => h x (List.mem_cons_of_mem p hx)
    have ihx := ih cv hrest
    have hnd : nextCursorD p = cv := by
      unfold nextCursorD
      rw [hcv]
      rfl
    simp only [linksOf] at hnr hcv
    simp only [List.cons_append, fetchIssuesGo, fetch, if_neg hst, hbody]
    rw [hnr, if_pos rfl, hcv]
    simp only [midsRecords, expectedReqs, cursorAfter, hnd, pageRecords, hbody,
      List.cons_append]
    rcases hres : fetchIssuesGo q rest (cursorAfter cv mids) with ⟨o, reqs⟩
    cases o <;> simp [ihx, hres, Except.map, List.append_assoc]

theorem fetchIssuesGo_last (q c : String) (last : RawResponse)
    (rest : List RawResponse) (h : LastPage last) :
    fetchIssuesGo q (last :: rest) c = (.ok (pageRecords last), [⟨c, "", q⟩]) := by
  obtain ⟨hst, hlist, hnr⟩ := h
  obtain ⟨items, hbody⟩ := pageIsList_elim hlist
  simp only [linksOf] at hnr
  simp only [fetchIssuesGo, fetch, if_neg hst, hbody]
  rw [if_neg hnr]
  simp [pageRecords, hbody]

theorem expectedReqs_append (q c : String) (xs ys : List RawResponse) :
    expectedReqs q c (xs ++ ys) =
      expectedReqs q c xs ++ expectedReqs q (cursorAfter c xs) ys := by
  induction xs generalizing c with
  | nil => simp [expectedReqs, cursorAfter]
  | cons p xs ih => simp [expectedReqs, cursorAfter, ih]

/-- Claim C1: for every trace of pages in which every page before the final
one carries a next.results attribute equal to the string true together with
a cursor, and the final page does not, fetch_issues returns the
concatenation of the record lists of those pages in order, issuing exactly
one request per page with statsPeriod empty, the space-joined stringified
query parameters, an empty starting cursor, and each later cursor taken
from the preceding page; pages served after the final one are never
requested.  In particular the concrete two-page run returns the three
records of pages P1 and P2 with exactly two requests, the second at cursor
12345:0:0. -/
theorem fetch_issues_pagination :
    (∀ (qps : List QueryParam) (mids : List RawResponse) (last : RawResponse)
       (rest : List RawResponse), (∀ p ∈ mids, MidPage p) → LastPage last →
       fetch_issues qps (mids ++ last :: rest) =
         (.ok (midsRecords mids ++ pageRecords last),
          expectedReqs (queryStr qps) "" (mids ++ [last])))
    ∧ fetch_issues [⟨"is", "unresolved"⟩] [pageP1, pageP2] =
        (.ok [.str "i1", .str "i2", .str "i3"],
         [⟨"", "", "is:unresolved"⟩, ⟨"12345:0:0", "", "is:unresolved"⟩]) := by
  constructor
  · intro qps mids last rest hmids hlast
    unfold fetch_issues
    rw [fetchIssuesGo_append _ _ _ _ hmids, fetchIssuesGo_last _ _ _ _ hlast,
      expectedReqs_append]
    simp [expectedReqs, Except.map]
  · rfl

/-- Witness for C1 at the concrete two-page run. -/
theorem fetch_issues_pagination_witness :
    fetch_issues [⟨"is", "unresolved"⟩] ([pageP1] ++ pageP2 :: []) =
      (.ok (midsRecords [pageP1] ++ pageRecords pageP2),
       expectedReqs (queryStr [⟨"is", "unresolved"⟩]) "" ([pageP1] ++ [pageP2])) :=
  fetch_issues_pagination.1 [⟨"is", "unresolved"⟩] [pageP1] pageP2 []
    (by decide) (by decide)

/-- Claim C5: a 403 response raises the access-denied exception with its
fixed message regardless of the body, even when the body is undecodable, so
the body decode is never attempted; any other status returns the decoded
body together with the link metadata, which is empty when the Link header
is absent. -/
theorem fetch_classification :
    (∀ r : RawResponse, r.status = 403 → fetch r = .error (.s2csv .accessDenied))
    ∧ (∀ (r : RawResponse) (j : Json), r.status ≠ 403 → r.body = some j →
        fetch r = .ok (j, r.linkHeader.getD []))
    ∧ (∀ (r : RawResponse) (j : Json), r.status ≠ 403 → r.body = some j →
        r.linkHeader = none → fetch r = .ok (j, [])) := by
  refine ⟨?_, ?_, ?_⟩
  · intro r h
    simp [fetch, h]
  · intro r j h hb
    simp [fetch, h, hb]
  · intro r j h hb hl
    simp [fetch, h, hb, hl]

/-- Witness for C5: the denied response carries an undecodable body, yet the
fixed access-denied message is raised; the ordinary response returns its
decoded body with empty link metadata. -/
theorem fetch_classification_witness :
    fetch resp403 = .error (.s2csv .accessDenied)
    ∧ fetch resp200 = .ok (.obj [("foo", .str "bar")], resp200.linkHeader.getD [])
    ∧ fetch resp200 = .ok (.obj [("foo", .str "bar")], []) :=
  ⟨fetch_classification.1 resp403 rfl,
   fetch_classification.2.1 resp200 _ (by decide) rfl,
   fetch_classification.2.2 resp200 _ (by decide) rfl rfl⟩

/-- Claim C6: when pagination reaches a page whose decoded body is a dict
containing a detail key, fetch_issues raises the handled exception carrying
that detail message: no records are returned, no page after it is
requested, and the orchestrator converts the error into the single printed
failure outcome. -/
theorem fetch_issues_detail_abort :
    (∀ (qps : List QueryParam) (mids : List RawResponse) (bad : RawResponse)
       (rest : List RawResponse) (kvs : List (String × Json)) (d : Json),
       (∀ p ∈ mids, MidPage p) → bad.status ≠ 403 →
       bad.body = some (.obj kvs) → alookup "detail" kvs = some d →
       fetch_issues qps (mids ++ bad :: rest) =
         (.error (.s2csv (.unexpectedResponse d)),
          expectedReqs (queryStr qps) "" (mids ++ [bad])))
    ∧ (∀ (w : World) (org proj : String) (qps : List QueryParam)
         (enrich : Option (List Enrichment)) (d : Json),
         (fetch_issues qps w.pages).1 = .error (.s2csv (.unexpectedResponse d)) →
         exportRun w org proj qps enrich = .failure (.unexpectedResponse d)) := by
  constructor
  · intro qps mids bad rest kvs d hmids hst hbody hdet
    unfold fetch_issues
    rw [fetchIssuesGo_append _ _ _ _ hmids, expectedReqs_append]
    simp only [fetchIssuesGo, fetch, if_neg hst, hbody, hdet]
    simp [expectedReqs, Except.map]
  · intro w org proj qps enrich d h
    unfold exportRun
    rw [h]

/-- Witness for C6 at a one-page run whose body is the API error dict. -/
theorem fetch_issues_detail_abort_witness :
    fetch_issues [] ([] ++ pageDetail :: []) =
      (.error (.s2csv (.unexpectedResponse (.str "Invalid query"))),
       expectedReqs (queryStr []) "" ([] ++ [pageDetail]))
    ∧ exportRun worldDetail "org" "proj" [] none =
        .failure (.unexpectedResponse (.str "Invalid query")) :=
  ⟨fetch_issues_detail_abort.1 [] [] pageDetail []
      [("detail", .str "Invalid query")] (.str "Invalid query")
      (by decide) (by decide) rfl rfl,
   fetch_issues_detail_abort.2 worldDetail "org" "proj" [] none _ rfl⟩

theorem specSteps_eq_walkSteps (steps : List String) (v : Json) :
    specSteps v steps = (walkSteps v steps).map normalizeEmpty := by
  induction steps generalizing v with
  | nil => cases v <;> rfl
  | cons s rest ih =>
    cases v with
    | obj kvs =>
      simp only [specSteps, walkSteps]
      exact ih _
    | null => rfl
    | bool b => rfl
    | num n => rfl
    | str s2 => rfl
    | arr items => rfl

/-- Counterexample to C2 as stated: for path a.b against an event mapping a
to the number 5, the claim asserts the walk defaults at the missing step b
and yields the empty string, but the code calls get on the non-dict
intermediate value and raises an uncaught AttributeError. -/
theorem enrich_walk_cex :
    enrichmentValue [("a", .num 5)] ["a", "b"] = .error .attributeError
    ∧ enrichmentValue [("a", .num 5)] ["a", "b"] ≠ .ok (.str "") :=
  ⟨rfl, fun h => nomatch h⟩

/-- Claim C2 (amended): the enrichment walk defaults to an empty dict at
each step whose key is missing from a dict, but a non-dict intermediate
value reached while segments remain raises an uncaught AttributeError
instead of defaulting; a walk that bottoms out on an empty dict is
normalized to the empty string, and any other terminal value (including 0
and non-empty structures) is kept as-is — equivalently the walk agrees
everywhere with the explicit spec-side recursion.  In particular path a.b.c
yields 5 against the nested dict, the empty string against a dict whose a
is an empty dict, and the empty string when a is absent. -/
theorem enrich_walk_amended :
    (∀ (event : List (String × Json)) (path : List String),
       enrichmentValue event path = specWalkValue event path)
    ∧ enrichmentValue [("a", .obj [("b", .obj [("c", .num 5)])])] ["a", "b", "c"]
        = .ok (.num 5)
    ∧ enrichmentValue [("a", .obj [])] ["a", "b", "c"] = .ok (.str "")
    ∧ enrichmentValue [("x", .num 1)] ["a", "b", "c"] = .ok (.str "")
    ∧ enrichmentValue [("a", .num 0)] ["a"] = .ok (.num 0) := by
  refine ⟨?_, rfl, rfl, rfl, rfl⟩
  intro event path
  cases path with
  | nil => rfl
  | cons s steps =>
    simp only [enrichmentValue, specWalkValue, specSteps_eq_walkSteps]

theorem alookup_dictSetKV_ne (kvs : List (String × Json)) (k k2 : String)
    (v : Json) (h : k ≠ k2) :
    alookup k (dictSetKV kvs k2 v) = alookup k kvs := by
  induction kvs with
  | nil => simp [dictSetKV, alookup, h]
  | cons p rest ih =>
    obtain ⟨ka, va⟩ := p
    by_cases hk : ka = k2
    · subst hk
      simp [dictSetKV, alookup, h]
    · simp [dictSetKV, alookup, hk, ih]

theorem alookup_dictSetKV_self (kvs : List (String × Json)) (k : String)
    (v : Json) :
    alookup k (dictSetKV kvs k v) = some v := by
  induction kvs with
  | nil => simp [dictSetKV, alookup]
  | cons p rest ih =>
    obtain ⟨ka, va⟩ := p
    by_cases hk : ka = k
    · subst hk
      simp [dictSetKV, alookup]
    · simp [dictSetKV, alookup, hk, Ne.symm hk, ih]

/-- Claim C9: on success enrich_issue only adds the side-map: every
top-level key other than the side-map key reads the same before and after;
and the fan-out is an independent per-record map, the i-th output record
depending only on the i-th input record, so the enrichment tasks of
distinct records have disjoint mutation targets. -/
theorem enrich_issue_frame :
    (∀ (eventsFor : EventServer) (enrs : List Enrichment) (issue out : Json),
       enrich_issue eventsFor enrs issue = .ok out →
       ∀ k, k ≠ "_enrichments" → jlookup out k = jlookup issue k)
    ∧ (∀ (eventsFor : EventServer) (enrs : List Enrichment)
         (issues outs : List Json),
       enrichAll eventsFor enrs issues = .ok outs →
       outs.length = issues.length ∧
         ∀ (i : Nat) (hi : i < issues.length) (ho : i < outs.length),
           enrich_issue eventsFor enrs (issues.get ⟨i, hi⟩)
             = .ok (outs.get ⟨i, ho⟩)) := by
  constructor
  · intro eventsFor enrs issue out h k hk
    cases issue with
    | obj kvs =>
      simp only [enrich_issue] at h
      cases hid : alookup "id" kvs with
      | none =>
        rw [hid] at h
        exact Except.noConfusion h
      | some idv =>
        simp only [hid] at h
        cases hf : fetch (eventsFor idv) with
        | error e =>
          rw [hf] at h
          exact Except.noConfusion h
        | ok pr =>
          obtain ⟨event, links⟩ := pr
          simp only [hf] at h
          cases hb : buildEnrichments event enrs [] with
          | error e =>
            rw [hb] at h
            exact Except.noConfusion h
          | ok em =>
            simp only [hb] at h
            cases h
            simp [jlookup, alookup_dictSetKV_ne _ _ _ _ hk]
    | null => exact Except.noConfusion h
    | bool b => exact Except.noConfusion h
    | num n => exact Except.noConfusion h
    | str s => exact Except.noConfusion h
    | arr items => exact Except.noConfusion h
  · intro eventsFor enrs issues
    induction issues with
    | nil =>
      intro outs h
      cases h
      exact ⟨rfl, fun i hi => absurd hi (by simp)⟩
    | cons i rest ih =>
      intro outs h
      unfold enrichAll at h
      cases he : enrich_issue eventsFor enrs i with
      | error e =>
        rw [he] at h
        exact Except.noConfusion h
      | ok i2 =>
        rw [he] at h
        cases hr : enrichAll eventsFor enrs rest with
        | error e =>
          rw [hr] at h
          exact Except.noConfusion h
        | ok rest2 =>
          rw [hr] at h
          cases h
          obtain ⟨hlen, hpt⟩ := ih rest2 hr
          refine ⟨by simp [hlen], ?_⟩
          intro n hn ho
          cases n with
          | zero => simpa using he
          | succ m =>
            simpa using hpt m (by simpa using hn) (by simpa using ho)

/-- Witness for C9: a one-enrichment run on a concrete record preserves the
culprit field, and the one-record fan-out maps to the one enriched
record. -/
theorem enrich_issue_frame_witness :
    jlookup (.obj [("id", .str "1"), ("culprit", .str "c"),
                   ("_enrichments", .obj [("X", .num 1)])]) "culprit"
      = jlookup issueWithId "culprit"
    ∧ [Json.obj [("id", .str "1"), ("culprit", .str "c"),
                 ("_enrichments", .obj [("X", .num 1)])]].length
        = [issueWithId].length :=
  ⟨enrich_issue_frame.1 eventsSimple [⟨"X", ["x"]⟩] issueWithId _ rfl
      "culprit" (by decide),
   (enrich_issue_frame.2 eventsSimple [⟨"X", ["x"]⟩] [issueWithId]
      [.obj [("id", .str "1"), ("culprit", .str "c"),
             ("_enrichments", .obj [("X", .num 1)])]] rfl).1⟩

theorem alookup_mergeDict_of_notin (extra : List (String × Json)) :
    ∀ (base : List (String × Json)) (k : String),
      k ∉ extra.map Prod.fst →
      alookup k (mergeDict base extra) = alookup k base := by
  induction extra with
  | nil => intro base k _; rfl
  | cons p rest ih =>
    intro base k h
    obtain ⟨k2, v2⟩ := p
    simp only [List.map_cons, List.mem_cons] at h
    push_neg at h
    obtain ⟨hne, hnotin⟩ := h
    simp only [mergeDict]
    rw [ih _ _ hnotin, alookup_dictSetKV_ne _ _ _ _ hne]

theorem alookup_mergeDict_right (extra : List (String × Json)) :
    ∀ (base : List (String × Json)) (k : String) (v : Json),
      (extra.map Prod.fst).Nodup → alookup k extra = some v →
      alookup k (mergeDict base extra) = some v := by
  induction extra with
  | nil => intro base k v _ h; exact Option.noConfusion h
  | cons p rest ih =>
    intro base k v hnd h
    obtain ⟨k2, v2⟩ := p
    simp only [List.map_cons, List.nodup_cons] at hnd
    obtain ⟨hk2, hndr⟩ := hnd
    simp only [alookup] at h
    by_cases hk : k = k2
    · subst hk
      rw [if_pos rfl] at h
      injection h with hv
      subst hv
      simp only [mergeDict]
      rw [alookup_mergeDict_of_notin _ _ _ hk2, alookup_dictSetKV_self]
    · rw [if_neg hk] at h
      simp only [mergeDict]
      exact ih _ _ _ hndr h

/-- Counterexample to C3 as stated: a default-type record with culprit,
count, userCount and permalink all present but no metadata field at all.
The claim predicts a successful row with empty Details, but the code
indexes the missing metadata dict, raising the handled missing-field
exception, which write_csv reports as the unexpected-API failure. -/
theorem projectRow_cex :
    projectRow issueDefaultNoMeta = .error .keyError
    ∧ tryRow base7 issueDefaultNoMeta = .error (.s2csv .unexpectedApi)
    ∧ projectRow issueDefaultNoMeta
        ≠ .ok (baseRow (.str "default") (.str "X") (.str "") (.num 1)
            (.num 2) (.str "L")) :=
  ⟨rfl, rfl, fun h => nomatch h⟩

/-- Claim C3 (amended): row projection classifies on the type tag — the
error tag takes Error from metadata.type defaulting to the tag and requires
metadata.value; the csp tag fixes Error to csp and requires
metadata.message; the default tag fixes Error to default and defaults
Details to the empty string from metadata.title, with the metadata dict
itself still required; any other tag keeps the tag verbatim with empty
Details without failing.  Location, Events, Users and Link come from the
required culprit, count, userCount and permalink fields, Notes is always
the empty string, the side-map is merged over the base columns with
side-map keys winning on collision, and a missing required field raises
the handled missing-field exception that the write loop converts into the
unexpected-API failure. -/
theorem projectRow_amended :
    (∀ (kvs md : List (String × Json)) (v cu cn uc pl : Json),
       alookup "type" kvs = some (.str "error") →
       alookup "metadata" kvs = some (.obj md) →
       alookup "value" md = some v →
       alookup "culprit" kvs = some cu → alookup "count" kvs = some cn →
       alookup "userCount" kvs = some uc → alookup "permalink" kvs = some pl →
       alookup "_enrichments" kvs = none →
       projectRow (.obj kvs) =
         .ok (baseRow ((alookup "type" md).getD (.str "error")) cu v cn uc pl))
    ∧ (∀ (kvs md : List (String × Json)),
       alookup "type" kvs = some (.str "error") →
       alookup "metadata" kvs = some (.obj md) →
       alookup "value" md = none →
       projectRow (.obj kvs) = .error .keyError)
    ∧ (∀ (kvs md : List (String × Json)) (m cu cn uc pl : Json),
       alookup "type" kvs = some (.str "csp") →
       alookup "metadata" kvs = some (.obj md) →
       alookup "message" md = some m →
       alookup "culprit" kvs = some cu → alookup "count" kvs = some cn →
       alookup "userCount" kvs = some uc → alookup "permalink" kvs = some pl →
       alookup "_enrichments" kvs = none →
       projectRow (.obj kvs) = .ok (baseRow (.str "csp") cu m cn uc pl))
    ∧ (∀ (kvs md : List (String × Json)),
       alookup "type" kvs = some (.str "csp") →
       alookup "metadata" kvs = some (.obj md) →
       alookup "message" md = none →
       projectRow (.obj kvs) = .error .keyError)
    ∧ (∀ (kvs md : List (String × Json)) (cu cn uc pl : Json),
       alookup "type" kvs = some (.str "default") →
       alookup "metadata" kvs = some (.obj md) →
       alookup "culprit" kvs = some cu → alookup "count" kvs = some cn →
       alookup "userCount" kvs = some uc → alookup "permalink" kvs = some pl →
       alookup "_enrichments" kvs = none →
       projectRow (.obj kvs) =
         .ok (baseRow (.str "default") cu ((alookup "title" md).getD (.str ""))
           cn uc pl))
    ∧ (∀ kvs : List (String × Json),
       alookup "type" kvs = some (.str "default") →
       alookup "metadata" kvs = none →
       projectRow (.obj kvs) = .error .keyError)
    ∧ (∀ (kvs : List (String × Json)) (t cu cn uc pl : Json),
       alookup "type" kvs = some t →
       jsonIsStr t "error" = false → jsonIsStr t "csp" = false →
       jsonIsStr t "default" = false →
       alookup "culprit" kvs = some cu → alookup "count" kvs = some cn →
       alookup "userCount" kvs = some uc → alookup "permalink" kvs = some pl →
       alookup "_enrichments" kvs = none →
       projectRow (.obj kvs) = .ok (baseRow t cu (.str "") cn uc pl))
    ∧ (∀ (kvs md ekvs : List (String × Json)) (v cu cn uc pl : Json),
       alookup "type" kvs = some (.str "error") →
       alookup "metadata" kvs = some (.obj md) →
       alookup "value" md = some v →
       alookup "culprit" kvs = some cu → alookup "count" kvs = some cn →
       alookup "userCount" kvs = some uc → alookup "permalink" kvs = some pl →
       alookup "_enrichments" kvs = some (.obj ekvs) →
       projectRow (.obj kvs) =
         .ok (mergeDict
           (baseRow ((alookup "type" md).getD (.str "error")) cu v cn uc pl)
           ekvs))
    ∧ (∀ (base extra : List (String × Json)) (k : String) (v : Json),
       (extra.map Prod.fst).Nodup → alookup k extra = some v →
       alookup k (mergeDict base extra) = some v)
    ∧ (∀ (kvs md : List (String × Json)) (v : Json),
       alookup "type" kvs = some (.str "error") →
       alookup "metadata" kvs = some (.obj md) →
       alookup "value" md = some v →
       alookup "culprit" kvs = none →
       projectRow (.obj kvs) = .error .keyError)
    ∧ (∀ (kvs md : List (String × Json)) (v cu : Json),
       alookup "type" kvs = some (.str "error") →
       alookup "metadata" kvs = some (.obj md) →
       alookup "value" md = some v →
       alookup "culprit" kvs = some cu → alookup "count" kvs = none →
       projectRow (.obj kvs) = .error .keyError)
    ∧ (∀ (kvs md : List (String × Json)) (v cu cn : Json),
       alookup "type" kvs = some (.str "error") →
       alookup "metadata" kvs = some (.obj md) →
       alookup "value" md = some v →
       alookup "culprit" kvs = some cu → alookup "count" kvs = some cn →
       alookup "userCount" kvs = none →
       projectRow (.obj kvs) = .error .keyError)
    ∧ (∀ (kvs md : List (String × Json)) (v cu cn uc : Json),
       alookup "type" kvs = some (.str "error") →
       alookup "metadata" kvs = some (.obj md) →
       alookup "value" md = some v →
       alookup "culprit" kvs = some cu → alookup "count" kvs = some cn →
       alookup "userCount" kvs = some uc → alookup "permalink" kvs = none →
       projectRow (.obj kvs) = .error .keyError)
    ∧ (∀ (fns : List String) (issue : Json),
       projectRow issue = .error .keyError →
       tryRow fns issue = .error (.s2csv .unexpectedApi))
    ∧ projectRow issueWarning =
        .ok (baseRow (.str "warning") (.str "X") (.str "explanation")
          (.num 123) (.num 3) (.str "L")) := by
  refine ⟨?_, ?_, ?_, ?_, ?_, ?_, ?_, ?_, ?_, ?_, ?_, ?_, ?_, ?_, rfl⟩
  · intro kvs md v cu cn uc pl ht hmd hv hcu hcn huc hpl henr
    simp [projectRow, projectED, pyIndex, pyGetD, baseRow, mergeDict,
      ht, hmd, hv, hcu, hcn, huc, hpl, henr,
      show jsonIsStr (.str "error") "error" = true from rfl]
  · intro kvs md ht hmd hv
    simp [projectRow, projectED, pyIndex, pyGetD, ht, hmd, hv,
      show jsonIsStr (.str "error") "error" = true from rfl]
  · intro kvs md m cu cn uc pl ht hmd hm hcu hcn huc hpl henr
    simp [projectRow, projectED, pyIndex, pyGetD, baseRow, mergeDict,
      ht, hmd, hm, hcu, hcn, huc, hpl, henr,
      show jsonIsStr (.str "csp") "error" = false from rfl,
      show jsonIsStr (.str "csp") "csp" = true from rfl]
  · intro kvs md ht hmd hm
    simp [projectRow, projectED, pyIndex, pyGetD, ht, hmd, hm,
      show jsonIsStr (.str "csp") "error" = false from rfl,
      show jsonIsStr (.str "csp") "csp" = true from rfl]
  · intro kvs md cu cn uc pl ht hmd hcu hcn huc hpl henr
    simp [projectRow, projectED, pyIndex, pyGetD, baseRow, mergeDict,
      ht, hmd, hcu, hcn, huc, hpl, henr,
      show jsonIsStr (.str "default") "error" = false from rfl,
      show jsonIsStr (.str "default") "csp" = false from rfl,
      show jsonIsStr (.str "default") "default" = true from rfl]
  · intro kvs ht hmd
    simp [projectRow, projectED, pyIndex, pyGetD, ht, hmd,
      show jsonIsStr (.str "default") "error" = false from rfl,
      show jsonIsStr (.str "default") "csp" = false from rfl,
      show jsonIsStr (.str "default") "default" = true from rfl]
  · intro kvs t cu cn uc pl ht hE hC hD hcu hcn huc hpl henr
    simp [projectRow, projectED, pyIndex, pyGetD, baseRow, mergeDict,
      ht, hE, hC, hD, hcu, hcn, huc, hpl, henr]
  · intro kvs md ekvs v cu cn uc pl ht hmd hv hcu hcn huc hpl henr
    simp [projectRow, projectED, pyIndex, pyGetD, baseRow,
      ht, hmd, hv, hcu, hcn, huc, hpl, henr,
      show jsonIsStr (.str "error") "error" = true from rfl]
  · exact fun base extra k v hnd h => alookup_mergeDict_right extra base k v hnd h
  · intro kvs md v ht hmd hv hcu
    simp [projectRow, projectED, pyIndex, pyGetD, ht, hmd, hv, hcu,
      show jsonIsStr (.str "error") "error" = true from rfl]
  · intro kvs md v cu ht hmd hv hcu hcn
    simp [projectRow, projectED, pyIndex, pyGetD, ht, hmd, hv, hcu, hcn,
      show jsonIsStr (.str "error") "error" = true from rfl]
  · intro kvs md v cu cn ht hmd hv hcu hcn huc
    simp [projectRow, projectED, pyIndex, pyGetD, ht, hmd, hv, hcu, hcn, huc,
      show jsonIsStr (.str "error") "error" = true from rfl]
  · intro kvs md v cu cn uc ht hmd hv hcu hcn huc hpl
    simp [projectRow, projectED, pyIndex, pyGetD, ht, hmd, hv, hcu, hcn, huc,
      hpl, show jsonIsStr (.str "error") "error" = true from rfl]
  · intro fns issue h
    simp [tryRow, h]

/-- Witness for C3 at the example record of the spec: an error-type record
with a more specific metadata type projects to the expected row. -/
theorem projectRow_amended_witness :
    projectRow (.obj [("type", .str "error"),
        ("metadata", .obj [("type", .str "warning"), ("value", .str "explanation")]),
        ("culprit", .str "X"), ("count", .num 123), ("userCount", .num 3),
        ("permalink", .str "L")]) =
      .ok (baseRow ((alookup "type"
            [("type", .str "warning"), ("value", .str "explanation")]).getD
          (.str "error"))
        (.str "X") (.str "explanation") (.num 123) (.num 3) (.str "L")) :=
  projectRow_amended.1
    [("type", .str "error"),
     ("metadata", .obj [("type", .str "warning"), ("value", .str "explanation")]),
     ("culprit", .str "X"), ("count", .num 123), ("userCount", .num 3),
     ("permalink", .str "L")]
    [("type", .str "warning"), ("value", .str "explanation")]
    (.str "explanation") (.str "X") (.num 123) (.num 3) (.str "L")
    rfl rfl rfl rfl rfl rfl rfl rfl

theorem parseMappings_ok (ms : List String) :
    ∀ es, parseMappings ms = .ok es →
      es.length = ms.length ∧
        ∀ (i : Nat) (hp : i < ms.length) (he : i < es.length),
          Enrichment.from_mapping_string (ms.get ⟨i, hp⟩) = .ok (es.get ⟨i, he⟩) := by
  induction ms with
  | nil =>
    intro es h
    cases h
    exact ⟨rfl, fun i hi => absurd hi (by simp)⟩
  | cons m rest ih =>
    intro es h
    unfold parseMappings at h
    cases hm : Enrichment.from_mapping_string m with
    | error e =>
      rw [hm] at h
      exact Except.noConfusion h
    | ok en =>
      simp only [hm] at h
      cases hr : parseMappings rest with
      | error e =>
        rw [hr] at h
        exact Except.noConfusion h
      | ok ens =>
        simp only [hr] at h
        cases h
        obtain ⟨hlen, hpt⟩ := ih ens hr
        refine ⟨by simp [hlen], ?_⟩
        intro i hi he
        cases i with
        | zero => simpa using hm
        | succ j => simpa using hpt j (by simpa using hi) (by simpa using he)

/-- Counterexample to C4 as stated: an entry whose label part contains an
equals sign.  The claim says the entry is split at the first equals sign so
the label keeps the rest, but the code unpacks the full split into exactly
two names and raises an uncaught ValueError. -/
theorem extract_enrichment_cex :
    extract_enrichment (some "a=b=c") = .error .valueError
    ∧ extract_enrichment (some "a=b=c") ≠ .ok [⟨"b=c", ["a"]⟩] :=
  ⟨rfl, fun h => nomatch h⟩

/-- Claim C4 (amended): the parser splits the mappings string on commas and
each entry on equals signs; an entry with exactly one equals sign parses
into the label and the left side split on dots, and entry order is
preserved; an entry with no equals sign — or, against the claim, with more
than one, so labels must not contain an equals sign — raises an uncaught
ValueError before any request is issued; an absent mappings string parses
to the empty list. -/
theorem extract_enrichment_amended :
    extract_enrichment none = .ok []
    ∧ (∀ (m l r : String), pySplit '=' m = [l, r] →
        Enrichment.from_mapping_string m = .ok ⟨r, pySplit '.' l⟩)
    ∧ (∀ m : String, (pySplit '=' m).length ≠ 2 →
        Enrichment.from_mapping_string m = .error .valueError)
    ∧ (∀ (s : String) (es : List Enrichment),
        extract_enrichment (some s) = .ok es →
        es.length = (pySplit ',' s).length ∧
          ∀ (i : Nat) (hp : i < (pySplit ',' s).length) (he : i < es.length),
            Enrichment.from_mapping_string ((pySplit ',' s).get ⟨i, hp⟩)
              = .ok (es.get ⟨i, he⟩))
    ∧ extract_enrichment (some "a.b=Label One,c=Label Two")
        = .ok [⟨"Label One", ["a", "b"]⟩, ⟨"Label Two", ["c"]⟩]
    ∧ (∀ (w : World) (org proj : String) (qps : List QueryParam)
         (m : Option String) (e : PyError),
        extract_enrichment m = .error e →
        mainModel w org proj qps m = (.crashed e, [])) := by
  refine ⟨rfl, ?_, ?_, ?_, rfl, ?_⟩
  · intro m l r h
    simp [Enrichment.from_mapping_string, h]
  · intro m h
    cases hsp : pySplit '=' m with
    | nil => simp [Enrichment.from_mapping_string, hsp]
    | cons a t =>
      cases t with
      | nil => simp [Enrichment.from_mapping_string, hsp]
      | cons b t2 =>
        cases t2 with
        | nil => exact absurd (by simp [hsp]) h
        | cons c t3 => simp [Enrichment.from_mapping_string, hsp]
  · intro s es h
    exact parseMappings_ok (pySplit ',' s) es h
  · intro w org proj qps m e h
    unfold mainModel
    rw [h]

/-- Witness for C4: a one-equals entry parses, a no-equals entry fails, and
a failing mappings string crashes the run before any request. -/
theorem extract_enrichment_amended_witness :
    Enrichment.from_mapping_string "a.b=Label One"
      = .ok ⟨"Label One", pySplit '.' "a.b"⟩
    ∧ Enrichment.from_mapping_string "nodelimiter" = .error .valueError
    ∧ mainModel worldEmpty "o" "p" [] (some "bad") = (.crashed .valueError, []) :=
  ⟨extract_enrichment_amended.2.1 "a.b=Label One" "a.b" "Label One" rfl,
   extract_enrichment_amended.2.2.1 "nodelimiter" (by decide),
   extract_enrichment_amended.2.2.2.2.2 worldEmpty "o" "p" [] (some "bad")
     .valueError rfl⟩

theorem writeRows_append_ok (fns : List String) (pre : List Json) :
    ∀ rest, (∀ i ∈ pre, exOk (tryRow fns i) = true) →
      writeRows fns (pre ++ rest) =
        (pre.map (rowCells fns) ++ (writeRows fns rest).1,
         (writeRows fns rest).2) := by
  induction pre with
  | nil =>
    intro rest _
    rcases hres : writeRows fns rest with ⟨ls, out⟩
    simp [hres]
  | cons i pre ih =>
    intro rest h
    have hi := h i (List.mem_cons_self i pre)
    cases ht : tryRow fns i with
    | error e =>
      rw [ht] at hi
      exact Bool.noConfusion hi
    | ok cells =>
      simp only [List.cons_append, writeRows, ht, List.append_eq]
      rw [ih rest (fun x hx => h x (List.mem_cons_of_mem i hx))]
      simp [rowCells, ht]

/-- Counterexample to C7 as stated: writing one well-formed and one
malformed record.  The claim says the file is either complete (header plus
one row per record) or not written at all, but the run leaves a truncated
file holding the header and the first row only, alongside the raised
missing-field failure. -/
theorem write_csv_cex :
    write_csv [issueWarning, issueCspNoMessage]
      = ([headerCells base7,
          [.str "warning", .str "X", .str "explanation", .num 123, .num 3,
           .str "", .str "L"]],
         .error (.s2csv .unexpectedApi))
    ∧ (write_csv [issueWarning, issueCspNoMessage]).1.length
        ≠ 1 + [issueWarning, issueCspNoMessage].length
    ∧ (write_csv [issueWarning, issueCspNoMessage]).1 ≠ [] :=
  ⟨rfl, by decide, fun h => nomatch h⟩

/-- Claim C7 (amended): a record failing projection aborts the write at
that record with the raised error: the rows after it are not written, but
the output file is not removed — it keeps the header line and the rows of
the records preceding the first failure, so a truncated partial file is
left behind. -/
theorem write_csv_abort_prefix :
    ∀ (fns : List String) (pre : List Json) (bad : Json) (post : List Json)
      (e : PyError),
      fieldnamesOf (pre ++ bad :: post) = .ok fns →
      (∀ i ∈ pre, exOk (tryRow fns i) = true) →
      tryRow fns bad = .error e →
      write_csv (pre ++ bad :: post)
        = (headerCells fns :: pre.map (rowCells fns), .error e) := by
  intro fns pre bad post e hf hpre hbad
  unfold write_csv
  simp only [hf]
  rw [writeRows_append_ok fns pre (bad :: post) hpre]
  simp [writeRows, hbad]

/-- Witness for C7: the good-then-malformed run keeps the header and the
first row and raises the missing-field failure. -/
theorem write_csv_abort_prefix_witness :
    write_csv ([issueWarning] ++ issueCspNoMessage :: [])
      = (headerCells base7 :: [issueWarning].map (rowCells base7),
         .error (.s2csv .unexpectedApi)) :=
  write_csv_abort_prefix base7 [issueWarning] issueCspNoMessage []
    (.s2csv .unexpectedApi) rfl (by decide) rfl

/-- Counterexample to C8 as stated: a run whose single issues page has the
number 5 as decoded body.  The claim says the violation belongs to the
handled missing-field class and is converted by the orchestrator to exactly
one printed message, but the run dies with an uncaught AssertionError
surfacing with a stack trace — not a handled failure outcome. -/
theorem shape_violation_cex :
    exportRun worldBadShape "o" "p" [] none = .crashed .assertionError
    ∧ (match exportRun worldBadShape "o" "p" [] none with
       | .failure _ => False
       | _ => True) :=
  ⟨rfl, trivial⟩

/-- Claim C8 (amended): an unexpected response shape — a non-list body that
is not a detail-bearing dict during pagination, or a non-dict latest-event
body during enrichment with at least one enrichment configured — raises an
AssertionError at the point of detection; this error is not of the handled
exception class, the orchestrator does not catch it, and the run ends as an
unhandled crash rather than a single printed message. -/
theorem shape_violation_amended :
    (∀ (qps : List QueryParam) (mids : List RawResponse) (bad : RawResponse)
       (rest : List RawResponse) (b : Json),
       (∀ p ∈ mids, MidPage p) → bad.status ≠ 403 → bad.body = some b →
       notListNotDetail b = true →
       fetch_issues qps (mids ++ bad :: rest)
         = (.error .assertionError,
            expectedReqs (queryStr qps) "" (mids ++ [bad])))
    ∧ (∀ (eventsFor : EventServer) (kvs : List (String × Json)) (idv b : Json)
         (e : Enrichment) (rest : List Enrichment),
       alookup "id" kvs = some idv → (eventsFor idv).status ≠ 403 →
       (eventsFor idv).body = some b → isObjB b = false →
       enrich_issue eventsFor (e :: rest) (.obj kvs) = .error .assertionError)
    ∧ (∀ (w : World) (org proj : String) (qps : List QueryParam)
         (enrich : Option (List Enrichment)),
       (fetch_issues qps w.pages).1 = .error .assertionError →
       exportRun w org proj qps enrich = .crashed .assertionError)
    ∧ (∀ (w : World) (org proj : String) (qps : List QueryParam)
         (enrs : List Enrichment) (issues : List Json),
       (fetch_issues qps w.pages).1 = .ok issues → enrs.isEmpty = false →
       enrichAll w.eventsFor enrs issues = .error .assertionError →
       exportRun w org proj qps (some enrs) = .crashed .assertionError) := by
  refine ⟨?_, ?_, ?_, ?_⟩
  · intro qps mids bad rest b hmids hst hbody hshape
    unfold fetch_issues
    rw [fetchIssuesGo_append _ _ _ _ hmids, expectedReqs_append]
    simp only [fetchIssuesGo, fetch, if_neg hst, hbody]
    cases b with
    | obj kvs =>
      cases hd : alookup "detail" kvs with
      | some d => simp [notListNotDetail, hd] at hshape
      | none => simp [hd, expectedReqs, Except.map]
    | arr items => simp [notListNotDetail] at hshape
    | null => simp [expectedReqs, Except.map]
    | bool b2 => simp [expectedReqs, Except.map]
    | num n => simp [expectedReqs, Except.map]
    | str s => simp [expectedReqs, Except.map]
  · intro eventsFor kvs idv b e rest hid hst hbody hobj
    simp only [enrich_issue, hid, fetch, if_neg hst, hbody]
    cases b with
    | obj kvs2 => simp [isObjB] at hobj
    | null => simp [buildEnrichments]
    | bool b2 => simp [buildEnrichments]
    | num n => simp [buildEnrichments]
    | str s => simp [buildEnrichments]
    | arr items => simp [buildEnrichments]
  · intro w org proj qps enrich h
    unfold exportRun
    rw [h]
  · intro w org proj qps enrs issues hfi hne henr
    simp [exportRun, hfi, hne, henr]

/-- Witness for C8: the pagination branch at the concrete bad-shape page,
the enrichment branch at a concrete non-dict event, and both propagation
branches at concrete worlds. -/
theorem shape_violation_amended_witness :
    fetch_issues [] ([] ++ pageBadShape :: [])
      = (.error .assertionError, expectedReqs (queryStr []) "" ([] ++ [pageBadShape]))
    ∧ enrich_issue eventsBadShape [⟨"X", ["x"]⟩] (.obj [("id", .str "1"), ("culprit", .str "c")])
        = .error .assertionError
    ∧ exportRun worldBadShape "o2" "p2" [] none = .crashed .assertionError
    ∧ exportRun ⟨[⟨200, some (.arr [issueWithId]), none⟩], eventsBadShape⟩
        "o3" "p3" [] (some [⟨"X", ["x"]⟩]) = .crashed .assertionError :=
  ⟨shape_violation_amended.1 [] [] pageBadShape [] (.num 5)
      (by decide) (by decide) rfl rfl,
   shape_violation_amended.2.1 eventsBadShape [("id", .str "1"), ("culprit", .str "c")]
      (.str "1") (.num 7) ⟨"X", ["x"]⟩ [] rfl (by decide) rfl rfl,
   shape_violation_amended.2.2.1 worldBadShape "o2" "p2" [] none rfl,
   shape_violation_amended.2.2.2 ⟨[⟨200, some (.arr [issueWithId]), none⟩], eventsBadShape⟩
      "o3" "p3" [] [⟨"X", ["x"]⟩] [issueWithId] rfl rfl rfl⟩

/-- Claim C10: a run whose fetched issue list is empty still writes the
output file, with exactly one header line holding the seven fixed columns,
no enrichment columns and no data rows, and reports success with the
output file named from the organization and project. -/
theorem export_empty_issues :
    write_csv [] = ([headerCells base7], .ok ())
    ∧ (∀ (w : World) (org proj : String) (qps : List QueryParam)
         (enrich : Option (List Enrichment)),
       (fetch_issues qps w.pages).1 = .ok [] →
       exportRun w org proj qps enrich
         = .success (org ++ "-" ++ proj ++ "-export.csv") [headerCells base7]) := by
  constructor
  · rfl
  · intro w org proj qps enrich h
    unfold exportRun
    simp only [h]
    cases enrich with
    | none => rfl
    | some enrs =>
      cases enrs with
      | nil => rfl
      | cons e rest => rfl

/-- Witness for C10 at a concrete world serving one empty page. -/
theorem export_empty_issues_witness :
    exportRun worldEmpty "org" "proj" [] none
      = .success ("org" ++ "-" ++ "proj" ++ "-export.csv") [headerCells base7] :=
  export_empty_issues.2 worldEmpty "org" "proj" [] none rfl

end Sentry2CSV
